import Mathlib

/-!
Shallow embedding of the core pipeline of `src/main.py` (YouTube Analyzer):
the dual-backend search, the relative/absolute publish-time resolution, the
date-range filter, the normalization field-mapping shared by display and CSV
export, and the transcript fetch-and-store step.

Conventions of the embedding:
* Python exceptions are modelled with `Except PyErr`; a Python function that
  cannot raise is modelled as a total Lean function.
* External collaborators (the YouTube API client, the `VideosSearch` scraper,
  the transcript provider, the filesystem) are modelled as explicit
  parameters carrying the outcome of the external call, since the embedded
  code only inspects those outcomes.
* `datetime` values are modelled at second granularity as `Int` seconds
  counted from 0001-01-01T00:00:00 (the minimum of Python's `datetime`
  range); `timedelta` construction and `datetime` subtraction carry the
  range checks that Python's `datetime` library performs (`timedelta` days
  magnitude at most 999999999, `datetime` year between 1 and 9999), raising
  `OverflowError` outside them, exactly as CPython does.  `OverflowError` is
  not a `ValueError`, so the `except ValueError` in `parse_relative_time`
  does not catch it.
* String primitives (`str.split()`, `str.lower()`, `int(...)`, substring
  containment) are modelled for ASCII text; Python additionally accepts
  non-ASCII digits and underscores in `int(...)` and non-ASCII whitespace in
  `split()`, which no claim here exercises.
-/

/-- Python exception kinds distinguished by the embedded code. -/
inductive PyErr where
  | valueError
  | keyError
  | attributeError
  | overflowError
  | transcriptsDisabled
  deriving DecidableEq, Repr

/-- Whitespace characters recognized by Python's `str.split()` (ASCII part). -/
def isPyWs (c : Char) : Bool :=
  c == ' ' || c == '\t' || c == '\n' || c == '\r' || c == '\x0b' || c == '\x0c'

/-- ASCII lowercasing, modelling Python's `str.lower()` on ASCII input. -/
def asciiLower (c : Char) : Char :=
  if 'A' ≤ c ∧ c ≤ 'Z' then Char.ofNat (c.toNat + 32) else c

/-- The decimal digit character for a digit value below ten. -/
def digitChar48 (d : Nat) : Char := Char.ofNat (48 + d)

/-- Value of a decimal digit string, most significant digit first. -/
def digitsVal (l : List Char) : Nat :=
  l.foldl (fun a c => 10 * a + (c.toNat - 48)) 0

/-- All characters are ASCII decimal digits. -/
def allDigits (l : List Char) : Bool := l.all (·.isDigit)

/-- Python's `int(...)` on an ASCII token: optional sign followed by a
nonempty run of decimal digits; anything else raises `ValueError`
(modelled as `none`). -/
def pyIntChars (l : List Char) : Option Int :=
  match l with
  | [] => none
  | c :: rest =>
    if c = '-' then
      if rest ≠ [] ∧ allDigits rest then some (-(digitsVal rest : Int)) else none
    else if c = '+' then
      if rest ≠ [] ∧ allDigits rest then some ((digitsVal rest : Int)) else none
    else if allDigits (c :: rest) then some ((digitsVal (c :: rest) : Int)) else none

/-- Decimal rendering of a natural number, fuel-indexed so that it is
structurally recursive (and hence kernel-reducible). -/
def natCharsF : Nat → Nat → List Char
  | 0, _ => []
  | f + 1, n =>
    if n < 10 then [digitChar48 n]
    else natCharsF f (n / 10) ++ [digitChar48 (n % 10)]

/-- Decimal rendering of a natural number. -/
def natChars (n : Nat) : List Char := natCharsF (n + 1) n

/-- Decimal rendering of an integer, with a leading minus sign when negative. -/
def intChars (i : Int) : List Char :=
  if i < 0 then '-' :: natChars i.natAbs else natChars i.natAbs

/-- Decimal rendering of a natural number as a string. -/
def natStr (n : Nat) : String := String.mk (natChars n)

/-- Decimal rendering of an integer as a string. -/
def intStr (i : Int) : String := String.mk (intChars i)

/-- Boolean prefix test on character lists. -/
def leadsWith : List Char → List Char → Bool
  | [], _ => true
  | _ :: _, [] => false
  | a :: as, b :: bs => a == b && leadsWith as bs

/-- Boolean substring containment on character lists, modelling Python's
`needle in haystack` on strings. -/
def containsSub : List Char → List Char → Bool
  | n, [] => n.isEmpty
  | n, h :: t => leadsWith n (h :: t) || containsSub n t

/-- The characters of the literal marker "Streamed". -/
def streamedChars : List Char := ['S', 't', 'r', 'e', 'a', 'm', 'e', 'd']

/-- Accumulator-style whitespace tokenizer: `wsSplitAux cs cur` processes
`cs` with `cur` holding the reversed characters of the token currently
being read. -/
def wsSplitAux : List Char → List Char → List (List Char)
  | [], cur => if cur = [] then [] else [cur.reverse]
  | c :: rest, cur =>
    if isPyWs c then
      if cur = [] then wsSplitAux rest []
      else cur.reverse :: wsSplitAux rest []
    else wsSplitAux rest (c :: cur)

/-- Python's `str.split()` with no argument: split on runs of whitespace,
dropping empty tokens. -/
def pySplit (cs : List Char) : List (List Char) := wsSplitAux cs []

/-- The five time units recognized by `parse_relative_time`. -/
inductive TUnit where
  | hour
  | day
  | week
  | month
  | year
  deriving DecidableEq, Repr

/-- The characters of a unit's name (singular). -/
def unitChars : TUnit → List Char
  | .hour => ['h', 'o', 'u', 'r']
  | .day => ['d', 'a', 'y']
  | .week => ['w', 'e', 'e', 'k']
  | .month => ['m', 'o', 'n', 't', 'h']
  | .year => ['y', 'e', 'a', 'r']

/-- The name of a unit as a string (singular). -/
def unitStr (u : TUnit) : String := String.mk (unitChars u)

/-- The if/elif chain of `parse_relative_time` (src/main.py lines 74-85):
substring-containment tests on the lowercased second token, tried in the
fixed order hour, day, week, month, year. -/
def matchUnit (unit : List Char) : Option TUnit :=
  if containsSub (unitChars .hour) unit then some .hour
  else if containsSub (unitChars .day) unit then some .day
  else if containsSub (unitChars .week) unit then some .week
  else if containsSub (unitChars .month) unit then some .month
  else if containsSub (unitChars .year) unit then some .year
  else none

/-- Seconds subtracted for `value` of a given unit, mirroring the
`timedelta` arguments in src/main.py lines 74-83: hours, days, weeks
directly; month as `value * 30` days; year as `value * 365` days. -/
def unitOffsetSecs (u : TUnit) (v : Int) : Int :=
  match u with
  | .hour => 3600 * v
  | .day => 86400 * v
  | .week => 604800 * v
  | .month => 86400 * (v * 30)
  | .year => 86400 * (v * 365)

/-- Greatest representable `datetime`, in seconds from 0001-01-01T00:00:00:
the years 1..9999 contain 9999 * 365 + 2424 = 3652059 days (2424 leap
days), and `datetime.max` at second granularity is the last second of the
last day. -/
def dtMaxSec : Int := 3652059 * 86400 - 1

/-- Construction of `timedelta(seconds = secs)` followed by
`datetime - timedelta` at second granularity.  CPython raises
`OverflowError` when the normalized day count of the `timedelta` exceeds
999999999 in magnitude, and again when the resulting `datetime` falls
outside year 1..9999; neither is a `ValueError`. -/
def dtSubDelta (now secs : Int) : Except PyErr Int :=
  if secs.fdiv 86400 < -999999999 ∨ 999999999 < secs.fdiv 86400 then
    .error .overflowError
  else if now - secs < 0 ∨ dtMaxSec < now - secs then
    .error .overflowError
  else
    .ok (now - secs)

/-- Body of `parse_relative_time` (src/main.py lines 60-87) over the
character list of the input, with the frozen clock `now` passed explicitly
(the function reads `datetime.now()` on lines 62 and 64; under a frozen
clock both reads are equal).  The `except ValueError` on line 86 catches
exactly the failure of `int(time_parts[0])`, modelled by the `none` branch
of `pyIntChars`; `OverflowError` from the timedelta arithmetic propagates. -/
def parseRelCore (cs : List Char) (now : Int) : Except PyErr Int :=
  if cs.isEmpty || containsSub streamedChars cs then .ok now
  else
    match pySplit cs with
    | p0 :: p1 :: _ =>
      match pyIntChars p0 with
      | none => .ok now
      | some v =>
        match matchUnit (p1.map asciiLower) with
        | some u => dtSubDelta now (unitOffsetSecs u v)
        | none => .ok now
    | _ => .ok now

/-- The relative-time resolver `parse_relative_time` of src/main.py
(lines 60-87), taking the input string and the frozen "now". -/
def parse_relative_time (s : String) (now : Int) : Except PyErr Int :=
  parseRelCore s.toList now

/-- Calendar timestamp at second granularity, the shape produced by
`datetime.strptime(s, '%Y-%m-%dT%H:%M:%SZ')`. -/
structure PyDateTime where
  year : Nat
  month : Nat
  day : Nat
  hour : Nat
  minute : Nat
  second : Nat
  deriving DecidableEq, Repr

/-- Gregorian leap-year rule used by Python's `datetime`. -/
def isLeapYear (y : Nat) : Bool :=
  y % 4 = 0 && (y % 100 ≠ 0 || y % 400 = 0)

/-- Days in a month of a given year, as validated by the `datetime`
constructor. -/
def daysInMonth (y m : Nat) : Nat :=
  if m = 2 then (if isLeapYear y then 29 else 28)
  else if m = 4 ∨ m = 6 ∨ m = 9 ∨ m = 11 then 30
  else 31

/-- Validity of a calendar timestamp: the ranges enforced by the
`datetime(year, month, day, hour, minute, second)` constructor
(`MINYEAR = 1`, `MAXYEAR = 9999`). -/
def validDT (t : PyDateTime) : Prop :=
  1 ≤ t.year ∧ t.year ≤ 9999 ∧
  1 ≤ t.month ∧ t.month ≤ 12 ∧
  1 ≤ t.day ∧ t.day ≤ daysInMonth t.year t.month ∧
  t.hour ≤ 23 ∧ t.minute ≤ 59 ∧ t.second ≤ 59

instance (t : PyDateTime) : Decidable (validDT t) := by
  unfold validDT; infer_instance

/-- Two-digit zero-padded decimal rendering (for values below 100). -/
def pad2 (n : Nat) : List Char := [digitChar48 (n / 10 % 10), digitChar48 (n % 10)]

/-- Four-digit zero-padded decimal rendering (for values below 10000). -/
def pad4 (n : Nat) : List Char :=
  [digitChar48 (n / 1000 % 10), digitChar48 (n / 100 % 10),
   digitChar48 (n / 10 % 10), digitChar48 (n % 10)]

/-- Modelled from the spec: the ISO-8601 second-granularity string
representation of a timestamp, in the exact layout `%Y-%m-%dT%H:%M:%SZ`
that the authenticated backend delivers in `snippet.publishedAt` (the
serializer itself is not part of src/main.py; the spec quantifies over
"the ISO-8601 string representation of t"). -/
def formatIso (t : PyDateTime) : String :=
  String.mk (pad4 t.year ++ '-' :: pad2 t.month ++ '-' :: pad2 t.day ++
    'T' :: pad2 t.hour ++ ':' :: pad2 t.minute ++ ':' :: pad2 t.second ++ ['Z'])

/-- Numeric value of a two-digit character pair. -/
def val2 (a b : Char) : Nat := 10 * (a.toNat - 48) + (b.toNat - 48)

/-- Numeric value of a four-digit character group. -/
def val4 (a b c d : Char) : Nat :=
  10 * (10 * (10 * (a.toNat - 48) + (b.toNat - 48)) + (c.toNat - 48)) + (d.toNat - 48)

/-- Model of `datetime.strptime(s, '%Y-%m-%dT%H:%M:%SZ')` (src/main.py
line 94) on the zero-padded layout the format produces: fixed-width fields
with the literal separators, followed by the range validation the
`datetime` constructor performs.  (Python's `strptime` additionally
accepts non-zero-padded month/day/hour fields, which neither the upstream
API nor any claim here produces.)  Failure models the `ValueError` that
`strptime` raises. -/
def strptimeIso (s : String) : Option PyDateTime :=
  match s.toList with
  | [y1, y2, y3, y4, c1, m1, m2, c2, d1, d2, c3,
     h1, h2, c4, mi1, mi2, c5, s1, s2, c6] =>
    if c1 = '-' ∧ c2 = '-' ∧ c3 = 'T' ∧ c4 = ':' ∧ c5 = ':' ∧ c6 = 'Z' ∧
        allDigits [y1, y2, y3, y4, m1, m2, d1, d2, h1, h2, mi1, mi2, s1, s2] = true then
      let t : PyDateTime :=
        { year := val4 y1 y2 y3 y4
          month := val2 m1 m2
          day := val2 d1 d2
          hour := val2 h1 h2
          minute := val2 mi1 mi2
          second := val2 s1 s2 }
      if validDT t then some t else none
    else none
  | _ => none

/-- Days from 0001-01-01 to the first day of the given year. -/
def daysBeforeYear (y : Nat) : Nat :=
  (y - 1) * 365 + (y - 1) / 4 - (y - 1) / 100 + (y - 1) / 400

/-- Days from the first of January to the first of the given month. -/
def daysBeforeMonth (y m : Nat) : Nat :=
  (List.range (m - 1)).foldl (fun a i => a + daysInMonth y (i + 1)) 0

/-- Seconds from 0001-01-01T00:00:00 to the given timestamp, the linear
timeline on which the filter's `<=` comparisons act. -/
def dtToSec (t : PyDateTime) : Int :=
  ((daysBeforeYear t.year + daysBeforeMonth t.year t.month + (t.day - 1)) * 86400
    + t.hour * 3600 + t.minute * 60 + t.second : Nat)

/-- Publish-time parse of the authenticated path as a point on the linear
timeline. -/
def strptimeIsoSec (s : String) : Option Int := (strptimeIso s).map dtToSec

/-- Scraped-backend `channel` sub-dictionary: src/main.py reads
`channel.name`, which may be absent. -/
structure ScrapedChannel where
  name : Option String
  deriving DecidableEq, Repr

/-- Scraped-backend `viewCount` sub-dictionary: src/main.py reads
`viewCount.text`, which may be absent. -/
structure ScrapedViewCount where
  text : Option String
  deriving DecidableEq, Repr

/-- Raw result of the scraping backend (`youtubesearchpython`): a flat
dictionary whose fields may each be absent. -/
structure ScrapedVideo where
  title : Option String
  channel : Option ScrapedChannel
  viewCount : Option ScrapedViewCount
  publishedTime : Option String
  id : Option String
  deriving DecidableEq, Repr

/-- The `snippet` block of an authenticated-backend result; each key may
be absent from the dictionary. -/
structure ApiSnippet where
  title : Option String
  channelTitle : Option String
  publishedAt : Option String
  deriving DecidableEq, Repr

/-- The `statistics` block of an enriched authenticated-backend result. -/
structure ApiStats where
  viewCount : Option String
  deriving DecidableEq, Repr

/-- Raw (enriched) result of the authenticated backend. -/
structure ApiVideo where
  snippet : Option ApiSnippet
  statistics : Option ApiStats
  id : Option String
  deriving DecidableEq, Repr

/-- A raw result from either backend, tagged by origin. -/
inductive RawVideo where
  | api (v : ApiVideo)
  | scraped (v : ScrapedVideo)
  deriving DecidableEq, Repr

/-- The uniform record view produced by the field mapping that
`display_results` (src/main.py lines 230-242) and `export_to_csv`
(lines 107-123) both apply. -/
structure NormalizedRecord where
  title : String
  channel : String
  views : String
  published : String
  videoId : String
  deriving DecidableEq, Repr

/-- Python's `d[key]` on a possibly-missing key: raises `KeyError` when
absent. -/
def keyGet (o : Option α) : Except PyErr α :=
  match o with
  | none => .error .keyError
  | some x => .ok x

/-- Scraped-path field mapping of `display_results` / `export_to_csv`
(src/main.py lines 117-123 and 238-242): every access goes through
`.get(..., default)`, so the mapping is total; each missing field becomes
"N/A". -/
def normalizeScraped (v : ScrapedVideo) : NormalizedRecord :=
  { title := v.title.getD "N/A"
    channel :=
      match v.channel with
      | none => "N/A"
      | some c => c.name.getD "N/A"
    views :=
      match v.viewCount with
      | none => "N/A"
      | some w => w.text.getD "N/A"
    published := v.publishedTime.getD "N/A"
    videoId := v.id.getD "N/A" }

/-- Authenticated-path field mapping of `display_results` /
`export_to_csv` (src/main.py lines 109-115 and 232-236): `snippet`,
`title`, `channelTitle`, `statistics`, `publishedAt` and `id` are read by
direct indexing (raising `KeyError` when absent); only
`statistics.get('viewCount', 'N/A')` is defensive. -/
def normalizeApi (v : ApiVideo) : Except PyErr NormalizedRecord := do
  let sn ← keyGet v.snippet
  let t ← keyGet sn.title
  let ch ← keyGet sn.channelTitle
  let st ← keyGet v.statistics
  let vc := st.viewCount.getD "N/A"
  let pub ← keyGet sn.publishedAt
  let vid ← keyGet v.id
  pure { title := t, channel := ch, views := vc, published := pub, videoId := vid }

/-- Publish-date resolution inside `filter_videos_by_date_range`
(src/main.py lines 93-96): the authenticated path indexes
`video['snippet']['publishedAt']` and parses it with `strptime`; the
scraped path reads `video.get('publishedTime', '')` and resolves it with
`parse_relative_time`. -/
def getPublishDate (useApi : Bool) (now : Int) (v : RawVideo) : Except PyErr Int :=
  if useApi then
    match v with
    | .api a =>
      match a.snippet with
      | none => .error .keyError
      | some sn =>
        match sn.publishedAt with
        | none => .error .keyError
        | some s =>
          match strptimeIsoSec s with
          | none => .error .valueError
          | some t => .ok t
    | .scraped _ => .error .keyError
  else
    match v with
    | .api _ => parse_relative_time "" now
    | .scraped sv => parse_relative_time (sv.publishedTime.getD "") now

/-- The date-range filter `filter_videos_by_date_range` (src/main.py
lines 90-99): walk the input in order, resolve each record's publish
time, and append the record to the output when
`start_date <= publish_date <= end_date`.  An exception while resolving
any record propagates out of the loop. -/
def filter_videos_by_date_range (videos : List RawVideo) (startDate endDate : Int)
    (useApi : Bool) (now : Int) : Except PyErr (List RawVideo) :=
  match videos with
  | [] => .ok []
  | v :: rest => do
    let t ← getPublishDate useApi now v
    let tail ← filter_videos_by_date_range rest startDate endDate useApi now
    if startDate ≤ t ∧ t ≤ endDate then .ok (v :: tail) else .ok tail

/-- Body of `search_videos_without_api` (src/main.py lines 40-45) before
its `except` clause: `upstream` stands for the outcome of
`VideosSearch(query, limit=max_results).result()['result']`; a nonempty
result list is returned, an empty one triggers
`raise ValueError("No results found")`. -/
def search_videos_without_api_body (upstream : Except PyErr (List ScrapedVideo)) :
    Except PyErr (List ScrapedVideo) := do
  let results ← upstream
  if results.isEmpty then .error .valueError else .ok results

/-- The scraping search `search_videos_without_api` (src/main.py lines
39-48): the whole body runs inside `try`, and `except Exception` prints
the error and returns the empty list, so the function always returns a
list to its caller. -/
def search_videos_without_api (upstream : Except PyErr (List ScrapedVideo)) :
    List ScrapedVideo :=
  match search_videos_without_api_body upstream with
  | .ok r => r
  | .error _ => []

/-- Outcome of one run of `search_and_display_videos`: the warning dialog
of the outer `except` (line 221-223), the "No Results" information dialog
(lines 215-217), or a successful display of the filtered records. -/
inductive PipelineOutcome where
  | errorDialog
  | noResultsInfo
  | displayed (videos : List RawVideo)
  deriving DecidableEq, Repr

/-- The authenticated branch of `search_and_display_videos` (src/main.py
lines 204-208): search, enrich, filter.  `apiPath` is the combined
outcome of `search_videos_with_api` plus `get_video_details`, delivering
the enriched raw results. -/
def apiBranch (apiPath : Except PyErr (List ApiVideo)) (startDate endDate now : Int) :
    Except PyErr (List RawVideo) := do
  let details ← apiPath
  filter_videos_by_date_range (details.map .api) startDate endDate true now

/-- The scraping branch of `search_and_display_videos` (src/main.py lines
209-213): call the scraping search, re-raise `ValueError("No results
found")` when it returned an empty list, else filter. -/
def scrapedBranch (upstream : Except PyErr (List ScrapedVideo))
    (startDate endDate now : Int) : Except PyErr (List RawVideo) :=
  let results := search_videos_without_api upstream
  if results.isEmpty then .error .valueError
  else filter_videos_by_date_range (results.map .scraped) startDate endDate false now

/-- The `search_and_display_videos` pipeline (src/main.py lines 196-223):
the authenticated branch is taken only when the checkbox is set AND the
module-level client exists (`if self.use_api and youtube:`); any
exception from either branch is caught by the outer `except` and turned
into a warning dialog; an empty filtered list produces the "No Results"
information dialog. -/
def search_and_display_videos (useApi youtubeConfigured : Bool)
    (apiPath : Except PyErr (List ApiVideo))
    (scrapedUpstream : Except PyErr (List ScrapedVideo))
    (startDate endDate now : Int) : PipelineOutcome :=
  let body : Except PyErr (List RawVideo) :=
    if useApi && youtubeConfigured then apiBranch apiPath startDate endDate now
    else scrapedBranch scrapedUpstream startDate endDate now
  match body with
  | .error _ => .errorDialog
  | .ok [] => .noResultsInfo
  | .ok l => .displayed l

/-- One transcript line: the provider's start offset (in hundredths of a
second, as rendered by the `:.2f` format) and its text. -/
structure TranscriptEntry where
  startCents : Nat
  text : String
  deriving DecidableEq, Repr

/-- Two-digit zero-padded string. -/
def pad2Str (n : Nat) : String := String.mk (pad2 n)

/-- Rendering of `{start:.2f}` for an offset held in hundredths. -/
def fmt2f (cents : Nat) : String := natStr (cents / 100) ++ "." ++ pad2Str (cents % 100)

/-- The newline-joined `"{start:.2f} - {text}"` serialization of a
transcript (src/main.py line 276). -/
def formatTranscript (entries : List TranscriptEntry) : String :=
  String.intercalate "\n" (entries.map (fun e => fmt2f e.startCents ++ " - " ++ e.text))

/-- Target path of a stored transcript (src/main.py line 279). -/
def transcriptPath (dir vid : String) : String := dir ++ "/" ++ vid ++ "_transcript.txt"

/-- A filesystem snapshot: an association list from path to content. -/
def FS : Type := List (String × String)

/-- Write (or overwrite) a file in the snapshot. -/
def fsWrite (fs : FS) (path content : String) : FS :=
  (path, content) :: List.filter (fun e => e.1 ≠ path) fs

/-- Read a file from the snapshot. -/
def fsLookup (fs : FS) (path : String) : Option String :=
  (List.find? (fun e => e.1 = path) fs).map (fun e => e.2)

/-- Dialog shown by `show_transcript`. -/
inductive TDialog where
  | transcriptSaved (path : String)
  | transcriptionError
  deriving DecidableEq, Repr

/-- The transcript fetch-and-store step `show_transcript` (src/main.py
lines 273-310, window construction elided as presentation): `provider`
stands for the outcome of `YouTubeTranscriptApi.get_transcript(video_id)`.
On success the serialized transcript is written to
`{directory}/{video_id}_transcript.txt` and the saved dialog is shown; on
any exception the `except` on line 309 shows a warning dialog and the
method returns normally, so no exception ever reaches the caller (the
result's second component is always `Except.ok`). -/
def show_transcript (provider : Except PyErr (List TranscriptEntry))
    (directory videoId : String) (fs : FS) : FS × Except PyErr TDialog :=
  match provider with
  | .error _ => (fs, .ok .transcriptionError)
  | .ok entries =>
    let text := formatTranscript entries
    let path := transcriptPath directory videoId
    (fsWrite fs path text, .ok (.transcriptSaved path))

/-! ### Helper lemmas: characters and decimal rendering -/

theorem toList_mk (l : List Char) : (String.mk l).toList = l := rfl

theorem toList_app (a b : String) : (a ++ b).toList = a.toList ++ b.toList := by
  cases a; cases b; rfl

theorem digitChar48_toNat {d : Nat} (h : d < 10) : (digitChar48 d).toNat = 48 + d := by
  interval_cases d <;> decide

theorem digitChar48_isDigit {d : Nat} (h : d < 10) : (digitChar48 d).isDigit = true := by
  interval_cases d <;> decide

theorem digitChar48_mod_isDigit (k : Nat) : (digitChar48 (k % 10)).isDigit = true :=
  digitChar48_isDigit (Nat.mod_lt _ (by norm_num))

theorem digitChar48_mod_toNat (k : Nat) : (digitChar48 (k % 10)).toNat = 48 + k % 10 :=
  digitChar48_toNat (Nat.mod_lt _ (by norm_num))

theorem ne_of_isDigit {c : Char} (h : c.isDigit = true) :
    c ≠ '-' ∧ c ≠ '+' ∧ c ≠ 'S' := by
  refine ⟨?_, ?_, ?_⟩ <;> (rintro rfl; exact absurd h (by decide))

theorem not_ws_of_isDigit {c : Char} (h : c.isDigit = true) : isPyWs c = false := by
  cases hc : isPyWs c
  · rfl
  · exfalso
    simp only [isPyWs, Bool.or_eq_true, beq_iff_eq] at hc
    rcases hc with ((((h1 | h1) | h1) | h1) | h1) | h1 <;>
      (subst h1; exact absurd h (by decide))

theorem digitsVal_singleton (c : Char) : digitsVal [c] = c.toNat - 48 := by
  simp [digitsVal]

theorem digitsVal_append_singleton (l : List Char) (c : Char) :
    digitsVal (l ++ [c]) = 10 * digitsVal l + (c.toNat - 48) := by
  simp [digitsVal, List.foldl_append]

theorem natCharsF_spec : ∀ f n, n < f →
    natCharsF f n ≠ [] ∧ (∀ c ∈ natCharsF f n, c.isDigit = true) ∧
      digitsVal (natCharsF f n) = n := by
  intro f
  induction f with
  | zero => intro n h; omega
  | succ f ih =>
    intro n h
    by_cases h10 : n < 10
    · refine ⟨by simp [natCharsF, h10], ?_, ?_⟩
      · intro c hc
        simp only [natCharsF, if_pos h10, List.mem_singleton] at hc
        subst hc
        exact digitChar48_isDigit h10
      · simp only [natCharsF, if_pos h10]
        rw [digitsVal_singleton, digitChar48_toNat h10]
        omega
    · have hdiv : n / 10 < f := by omega
      obtain ⟨ih1, ih2, ih3⟩ := ih (n / 10) hdiv
      refine ⟨by simp [natCharsF, h10], ?_, ?_⟩
      · intro c hc
        simp only [natCharsF, if_neg h10, List.mem_append, List.mem_singleton] at hc
        rcases hc with hc | hc
        · exact ih2 c hc
        · subst hc
          exact digitChar48_isDigit (by omega)
      · simp only [natCharsF, if_neg h10]
        rw [digitsVal_append_singleton, ih3, digitChar48_toNat (show n % 10 < 10 by omega)]
        omega

theorem natChars_spec (n : Nat) :
    natChars n ≠ [] ∧ (∀ c ∈ natChars n, c.isDigit = true) ∧ digitsVal (natChars n) = n :=
  natCharsF_spec (n + 1) n (by omega)

theorem pyIntChars_all_digits {l : List Char} (h1 : l ≠ [])
    (h2 : ∀ c ∈ l, c.isDigit = true) : pyIntChars l = some ((digitsVal l : Nat) : Int) := by
  cases l with
  | nil => cases h1 rfl
  | cons c rest =>
    have hc := h2 c (by simp)
    obtain ⟨hm, hp, _⟩ := ne_of_isDigit hc
    have hall : allDigits (c :: rest) = true := by
      simp only [allDigits, List.all_eq_true]
      exact fun d hd => h2 d hd
    simp [pyIntChars, hm, hp, hall]

theorem pyIntChars_natChars (n : Nat) : pyIntChars (natChars n) = some ((n : Nat) : Int) := by
  obtain ⟨h1, h2, h3⟩ := natChars_spec n
  rw [pyIntChars_all_digits h1 h2, h3]

theorem pyIntChars_neg_digits {l : List Char} (h1 : l ≠ [])
    (h2 : ∀ c ∈ l, c.isDigit = true) :
    pyIntChars ('-' :: l) = some (-((digitsVal l : Nat) : Int)) := by
  have hall : allDigits l = true := by
    simp only [allDigits, List.all_eq_true]
    exact fun d hd => h2 d hd
  simp [pyIntChars, h1, hall]

theorem pyIntChars_intChars (i : Int) : pyIntChars (intChars i) = some i := by
  obtain ⟨h1, h2, h3⟩ := natChars_spec i.natAbs
  by_cases hneg : i < 0
  · rw [intChars, if_pos hneg, pyIntChars_neg_digits h1 h2, h3]
    congr 1
    omega
  · rw [intChars, if_neg hneg, pyIntChars_all_digits h1 h2, h3]
    congr 1
    omega

/-! ### Helper lemmas: substring containment -/

theorem leadsWith_mem : ∀ (n l : List Char), leadsWith n l = true → ∀ c ∈ n, c ∈ l := by
  intro n
  induction n with
  | nil => intro l _ c hc; simp at hc
  | cons a as ih =>
    intro l h c hc
    cases l with
    | nil => simp [leadsWith] at h
    | cons b bs =>
      simp only [leadsWith, Bool.and_eq_true, beq_iff_eq] at h
      obtain ⟨hab, hrest⟩ := h
      rcases List.mem_cons.mp hc with rfl | hc2
      · simp [hab]
      · exact List.mem_cons_of_mem _ (ih bs hrest c hc2)

theorem containsSub_mem : ∀ (hay n : List Char), containsSub n hay = true → ∀ c ∈ n, c ∈ hay := by
  intro hay
  induction hay with
  | nil =>
    intro n h c hc
    simp only [containsSub, List.isEmpty_iff] at h
    subst h
    simp at hc
  | cons b bs ih =>
    intro n h c hc
    simp only [containsSub, Bool.or_eq_true] at h
    rcases h with h | h
    · exact leadsWith_mem n (b :: bs) h c hc
    · exact List.mem_cons_of_mem _ (ih n h c hc)

theorem containsSub_eq_false_of_not_mem {n hay : List Char} {c : Char}
    (hc : c ∈ n) (h : c ∉ hay) : containsSub n hay = false := by
  cases hres : containsSub n hay
  · rfl
  · exact absurd (containsSub_mem hay n hres c hc) h

theorem streamed_not_in {hay : List Char} (h : 'S' ∉ hay) :
    containsSub streamedChars hay = false :=
  containsSub_eq_false_of_not_mem (by decide) h

/-! ### Helper lemmas: whitespace splitting -/

theorem wsSplitAux_nil_nil : wsSplitAux [] [] = [] := rfl

theorem wsSplitAux_append_nonws (tok : List Char) :
    ∀ (rest cur : List Char), (∀ c ∈ tok, isPyWs c = false) →
      wsSplitAux (tok ++ rest) cur = wsSplitAux rest (tok.reverse ++ cur) := by
  induction tok with
  | nil => intro rest cur _; simp
  | cons c tokTail ih =>
    intro rest cur h
    have hc : isPyWs c = false := h c (by simp)
    show wsSplitAux (c :: (tokTail ++ rest)) cur = _
    rw [wsSplitAux, hc]
    simp only [Bool.false_eq_true, if_false]
    rw [ih rest (c :: cur) (fun d hd => h d (by simp [hd]))]
    simp [List.append_assoc]

theorem wsSplitAux_token (tok rest : List Char) (h1 : tok ≠ [])
    (h2 : ∀ c ∈ tok, isPyWs c = false)
    (h3 : rest = [] ∨ ∃ c r, rest = c :: r ∧ isPyWs c = true) :
    wsSplitAux (tok ++ rest) [] = tok :: wsSplitAux (rest.drop 1) [] := by
  rw [wsSplitAux_append_nonws tok rest [] h2]
  have hne : tok.reverse ++ ([] : List Char) ≠ [] := by
    simpa using h1
  rcases h3 with rfl | ⟨c, r, rfl, hws⟩
  · rw [wsSplitAux, if_neg hne]
    simp [wsSplitAux_nil_nil]
  · rw [wsSplitAux, hws]
    simp only [if_true]
    rw [if_neg hne]
    simp

/-! ### Helper lemmas: the relative-time resolver -/

theorem intChars_ne_nil (v : Int) : intChars v ≠ [] := by
  obtain ⟨hne, _, _⟩ := natChars_spec v.natAbs
  by_cases hv : v < 0
  · simp [intChars, hv]
  · simpa [intChars, hv] using hne

theorem intChars_not_ws (v : Int) : ∀ c ∈ intChars v, isPyWs c = false := by
  obtain ⟨_, hdig, _⟩ := natChars_spec v.natAbs
  intro c hc
  rw [intChars] at hc
  by_cases hv : v < 0
  · rw [if_pos hv] at hc
    rcases List.mem_cons.mp hc with rfl | hc2
    · decide
    · exact not_ws_of_isDigit (hdig c hc2)
  · rw [if_neg hv] at hc
    exact not_ws_of_isDigit (hdig c hc)

theorem intChars_no_S (v : Int) : 'S' ∉ intChars v := by
  obtain ⟨_, hdig, _⟩ := natChars_spec v.natAbs
  intro hc
  rw [intChars] at hc
  by_cases hv : v < 0
  · rw [if_pos hv] at hc
    rcases List.mem_cons.mp hc with heq | hc2
    · exact absurd heq (by decide)
    · exact absurd (hdig _ hc2) (by decide)
  · rw [if_neg hv] at hc
    exact absurd (hdig _ hc) (by decide)

theorem pySplit_two_tokens (first tok rest : List Char)
    (hfne : first ≠ []) (hfws : ∀ c ∈ first, isPyWs c = false)
    (htokne : tok ≠ []) (htokws : ∀ c ∈ tok, isPyWs c = false)
    (hrest : rest = [] ∨ ∃ c r, rest = c :: r ∧ isPyWs c = true) :
    pySplit (first ++ ' ' :: (tok ++ rest)) =
      first :: tok :: wsSplitAux (rest.drop 1) [] := by
  rw [pySplit, wsSplitAux_token first (' ' :: (tok ++ rest)) hfne hfws
    (Or.inr ⟨' ', tok ++ rest, rfl, by decide⟩)]
  rw [show ((' ' :: (tok ++ rest)).drop 1) = tok ++ rest from rfl]
  rw [wsSplitAux_token tok rest htokne htokws hrest]

theorem parseRelCore_unit (v : Int) (tok rest : List Char) (u : TUnit) (now : Int)
    (htokne : tok ≠ [])
    (htokws : ∀ c ∈ tok, isPyWs c = false)
    (hstr : containsSub streamedChars (intChars v ++ ' ' :: (tok ++ rest)) = false)
    (hunit : matchUnit (tok.map asciiLower) = some u)
    (hrest : rest = [] ∨ ∃ c r, rest = c :: r ∧ isPyWs c = true) :
    parseRelCore (intChars v ++ ' ' :: (tok ++ rest)) now =
      dtSubDelta now (unitOffsetSecs u v) := by
  have hsplit := pySplit_two_tokens (intChars v) tok rest (intChars_ne_nil v)
    (intChars_not_ws v) htokne htokws hrest
  have hcs_ne : (intChars v ++ ' ' :: (tok ++ rest)).isEmpty = false := by
    cases hi : intChars v with
    | nil => exact absurd hi (intChars_ne_nil v)
    | cons c cs2 => rfl
  rw [parseRelCore]
  rw [hcs_ne, hstr]
  simp only [Bool.or_self, Bool.false_eq_true, if_false]
  rw [hsplit]
  simp only [pyIntChars_intChars, hunit]

theorem parseRelCore_fallback (cs : List Char) (now : Int)
    (h : cs = [] ∨ containsSub streamedChars cs = true ∨
      (pySplit cs).length < 2 ∨
      (∃ p0 p1 r, pySplit cs = p0 :: p1 :: r ∧
        (pyIntChars p0 = none ∨
          ∃ v, pyIntChars p0 = some v ∧ matchUnit (p1.map asciiLower) = none))) :
    parseRelCore cs now = .ok now := by
  by_cases hc : (cs.isEmpty || containsSub streamedChars cs) = true
  · rw [parseRelCore, hc]
    rfl
  · have hc2 : (cs.isEmpty || containsSub streamedChars cs) = false :=
      Bool.eq_false_iff.mpr hc
    rcases h with rfl | hstr | hlen | ⟨p0, p1, r, hsp, hcase⟩
    · rfl
    · exfalso
      rw [hstr] at hc2
      simp at hc2
    · rw [parseRelCore, hc2]
      simp only [Bool.false_eq_true, if_false]
      rcases hps : pySplit cs with _ | ⟨q0, tail⟩
      · rfl
      · rcases tail with _ | ⟨q1, r2⟩
        · rfl
        · exfalso
          rw [hps] at hlen
          simp at hlen
          omega
    · rw [parseRelCore, hc2]
      simp only [Bool.false_eq_true, if_false]
      rw [hsp]
      rcases hcase with hnone | ⟨v, hv, hmu⟩
      · simp [hnone]
      · simp [hv, hmu]

/-! ### Helper lemmas: the strptime model and its round trip -/

theorem daysInMonth_le (y m : Nat) : daysInMonth y m ≤ 31 := by
  unfold daysInMonth
  split_ifs <;> omega

theorem val4_digits {n : Nat} (h : n ≤ 9999) :
    val4 (digitChar48 (n / 1000 % 10)) (digitChar48 (n / 100 % 10))
      (digitChar48 (n / 10 % 10)) (digitChar48 (n % 10)) = n := by
  simp only [val4, digitChar48_mod_toNat]
  omega

theorem val2_digits {n : Nat} (h : n ≤ 99) :
    val2 (digitChar48 (n / 10 % 10)) (digitChar48 (n % 10)) = n := by
  simp only [val2, digitChar48_mod_toNat]
  omega

theorem strptime_format_roundtrip (t : PyDateTime) (h : validDT t) :
    strptimeIso (formatIso t) = some t := by
  obtain ⟨y, mo, d, hr, mi, ss⟩ := t
  unfold validDT at h
  dsimp only at h
  obtain ⟨hy1, hy2, hm1, hm2, hd1, hd2, hhr, hmi2, hss⟩ := h
  have hdm := daysInMonth_le y mo
  unfold strptimeIso formatIso pad4 pad2
  simp only [toList_mk, List.cons_append, List.nil_append]
  have hall : allDigits [digitChar48 (y / 1000 % 10), digitChar48 (y / 100 % 10),
      digitChar48 (y / 10 % 10), digitChar48 (y % 10),
      digitChar48 (mo / 10 % 10), digitChar48 (mo % 10),
      digitChar48 (d / 10 % 10), digitChar48 (d % 10),
      digitChar48 (hr / 10 % 10), digitChar48 (hr % 10),
      digitChar48 (mi / 10 % 10), digitChar48 (mi % 10),
      digitChar48 (ss / 10 % 10), digitChar48 (ss % 10)] = true := by
    simp [allDigits, digitChar48_mod_isDigit]
  simp only [hall, true_and, and_true, and_self, if_true]
  rw [val4_digits hy2, val2_digits (show mo ≤ 99 by omega),
    val2_digits (show d ≤ 99 by omega), val2_digits (show hr ≤ 99 by omega),
    val2_digits (show mi ≤ 99 by omega), val2_digits (show ss ≤ 99 by omega)]
  rw [if_pos (show validDT ⟨y, mo, d, hr, mi, ss⟩ from
    ⟨hy1, hy2, hm1, hm2, hd1, hd2, hhr, hmi2, hss⟩)]

/-! ### Remaining infrastructure -/

instance {ε α : Type} [DecidableEq ε] [DecidableEq α] : DecidableEq (Except ε α)
  | .ok a, .ok b =>
    if h : a = b then .isTrue (congrArg _ h)
    else .isFalse (fun hh => h (Except.ok.inj hh))
  | .error e, .error f =>
    if h : e = f then .isTrue (congrArg _ h)
    else .isFalse (fun hh => h (Except.error.inj hh))
  | .ok _, .error _ => .isFalse (fun hh => Except.noConfusion hh)
  | .error _, .ok _ => .isFalse (fun hh => Except.noConfusion hh)

theorem intChars_coe_nat (n : Nat) : intChars (n : Int) = natChars n := by
  rw [intChars, if_neg (by omega)]
  simp

/-! ### Claim C4 -/

/-- C4: for every outcome of the scraping upstream call,
`search_videos_without_api` returns a list and never propagates an
exception: it returns the upstream list when that list is nonempty and
the empty list in every other case (upstream failure, or the internally
raised and internally caught "No results found" error). -/
theorem C4_scraping_never_raises (upstream : Except PyErr (List ScrapedVideo)) :
    search_videos_without_api upstream = [] ∨
      ∃ l, upstream = .ok l ∧ l ≠ [] ∧ search_videos_without_api upstream = l := by
  rcases upstream with e | l
  · left
    rfl
  · rcases l with _ | ⟨v, rest⟩
    · left
      rfl
    · right
      exact ⟨v :: rest, rfl, by simp, rfl⟩

/-! ### Claim C9 -/

/-- C9 counterexample: when the transcript provider signals
unavailability, `show_transcript` does not raise any error to its caller
(the claim asserts it raises `TranscriptUnavailableError`): it returns
normally with a warning dialog, leaving the filesystem untouched and no
file at the transcript path. -/
theorem C9_counterexample :
    show_transcript (.error .transcriptsDisabled) "/tmp/t" "abc123" [] =
      ([], .ok .transcriptionError) ∧
    fsLookup [] (transcriptPath "/tmp/t" "abc123") = none := ⟨rfl, rfl⟩

/-- C9 (amended): for every provider failure, `show_transcript` catches
the exception and reports it through a warning dialog, returning normally
(never raising to the caller), and the filesystem is returned unchanged —
in particular no file is created at `{directory}/{video_id}_transcript.txt`
and prior on-disk state is untouched. -/
theorem C9_amended (err : PyErr) (dir vid : String) (fs : FS) :
    show_transcript (.error err) dir vid fs = (fs, .ok .transcriptionError) := rfl

/-! ### Claim C1 -/

/-- C1 counterexample: when the scraping upstream call returns zero
results, `search_videos_without_api` returns normally with the empty list
(the claim asserts it raises `EmptyResultError` rather than returning
normally): its internally raised "No results found" error is caught by
its own catch-all handler. -/
theorem C1_counterexample :
    search_videos_without_api (.ok []) = [] := rfl

/-- C1 (amended): when the scraping upstream call returns zero results,
`search_videos_without_api` returns the empty list normally (its own
handler caught the internally raised error); the pipeline then re-raises
the "No results found" error itself before the date-range filter is ever
invoked, so the run surfaces an error dialog. -/
theorem C1_amended (useApi youtubeConfigured : Bool)
    (apiPath : Except PyErr (List ApiVideo)) (startDate endDate now : Int)
    (h : (useApi && youtubeConfigured) = false) :
    search_videos_without_api (.ok []) = [] ∧
      search_and_display_videos useApi youtubeConfigured apiPath (.ok [])
        startDate endDate now = .errorDialog := by
  refine ⟨rfl, ?_⟩
  rw [search_and_display_videos]
  rw [h]
  rfl

/-- C1 witness. -/
theorem C1_amended_witness :
    search_videos_without_api (.ok []) = [] ∧
      search_and_display_videos false false (.ok []) (.ok []) 0 0 0 = .errorDialog :=
  C1_amended false false (.ok []) 0 0 0 rfl

/-! ### Claim C3 -/

/-- C2 counterexample: normalization of an authenticated-backend raw
result can raise (the claim asserts it never raises): a result whose
`snippet` key is missing produces a `KeyError` even though all other
fields are present. -/
theorem C2_counterexample :
    normalizeApi ⟨none, some ⟨some "7"⟩, some "abc"⟩ = .error .keyError := rfl

/-- C2 (amended): the scraped-variant field mapping never raises and
resolves every missing optional field (title, channel, channel name,
view count, view-count text, publish time, id) to "N/A"; the
authenticated-variant mapping is defensive only for the view count
(missing `statistics.viewCount` becomes "N/A") and raises `KeyError`
when `snippet` or `statistics` themselves are missing, and likewise
when any directly indexed key — `title`, `channelTitle`, `publishedAt`,
or `id` — is missing. -/
theorem C2_amended (v : ScrapedVideo) (a : ApiVideo) (t ch pub i : String) :
    ((v.title = none → (normalizeScraped v).title = "N/A") ∧
      (v.channel = none → (normalizeScraped v).channel = "N/A") ∧
      (∀ c, v.channel = some c → c.name = none → (normalizeScraped v).channel = "N/A") ∧
      (v.viewCount = none → (normalizeScraped v).views = "N/A") ∧
      (∀ w, v.viewCount = some w → w.text = none → (normalizeScraped v).views = "N/A") ∧
      (v.publishedTime = none → (normalizeScraped v).published = "N/A") ∧
      (v.id = none → (normalizeScraped v).videoId = "N/A")) ∧
    ((a.snippet = none → normalizeApi a = .error .keyError) ∧
      normalizeApi ⟨some ⟨some t, some ch, some pub⟩, some ⟨none⟩, some i⟩ =
        .ok ⟨t, ch, "N/A", pub, i⟩ ∧
      normalizeApi ⟨some ⟨some t, some ch, some pub⟩, none, some i⟩ = .error .keyError ∧
      (∀ sn, a.snippet = some sn →
        sn.title = none ∨ sn.channelTitle = none ∨ a.statistics = none ∨
          sn.publishedAt = none ∨ a.id = none →
        normalizeApi a = .error .keyError)) := by
  refine ⟨⟨?_, ?_, ?_, ?_, ?_, ?_, ?_⟩, ⟨?_, rfl, rfl, ?_⟩⟩
  · intro h
    simp [normalizeScraped, h]
  · intro h
    simp [normalizeScraped, h]
  · intro c hc hn
    simp [normalizeScraped, hc, hn]
  · intro h
    simp [normalizeScraped, h]
  · intro w hw hn
    simp [normalizeScraped, hw, hn]
  · intro h
    simp [normalizeScraped, h]
  · intro h
    simp [normalizeScraped, h]
  · intro h
    simp only [normalizeApi, h, keyGet]
    rfl
  · intro sn hsn hmiss
    obtain ⟨osn, ost, oid⟩ := a
    obtain rfl : osn = some sn := hsn
    obtain ⟨ot, oc, op⟩ := sn
    rcases hmiss with h | h | h | h | h
    · obtain rfl : ot = none := h
      rfl
    · obtain rfl : oc = none := h
      cases ot <;> rfl
    · obtain rfl : ost = none := h
      cases ot <;> cases oc <;> rfl
    · obtain rfl : op = none := h
      cases ot <;> cases oc <;> cases ost <;> rfl
    · obtain rfl : oid = none := h
      cases ot <;> cases oc <;> cases ost <;> cases op <;> rfl

/-- C2 witness. -/
theorem C2_amended_witness :
    (normalizeScraped ⟨none, none, none, none, none⟩).title = "N/A" ∧
      normalizeApi ⟨none, none, none⟩ = .error .keyError ∧
      normalizeApi ⟨some ⟨none, some "c", some "p"⟩, some ⟨some "7"⟩, some "i"⟩ =
        .error .keyError :=
  ⟨(C2_amended ⟨none, none, none, none, none⟩ ⟨none, none, none⟩ "t" "c" "p" "i").1.1 rfl,
    (C2_amended ⟨none, none, none, none, none⟩ ⟨none, none, none⟩ "t" "c" "p" "i").2.1 rfl,
    (C2_amended ⟨none, none, none, none, none⟩
        ⟨some ⟨none, some "c", some "p"⟩, some ⟨some "7"⟩, some "i"⟩
        "t" "c" "p" "i").2.2.2.2 ⟨none, some "c", some "p"⟩ rfl (Or.inl rfl)⟩

/-! ### Claim C5 -/

/-- C5 counterexample: the resolver is neither total nor does it return
"now" for every unrecognized unit word.  At frozen now = 1000000,
resolving "5 yesterday" returns now minus five days (the unit check is
substring containment, and "yesterday" contains "day"), not now; and
resolving "999999999999 hours ago" raises `OverflowError` (the
`timedelta` day bound is exceeded, and `except ValueError` does not catch
`OverflowError`) instead of returning a time. -/
theorem C5_counterexample :
    parse_relative_time "5 yesterday" 1000000 = .ok 568000 ∧
      (568000 : Int) ≠ 1000000 ∧
      parse_relative_time "999999999999 hours ago" 1000000 = .error .overflowError := by
  refine ⟨by decide, by decide, by decide⟩

/-- C5 (amended): the resolver returns the frozen "now" exactly, without
raising, in every fallback case: empty input, input containing
"Streamed", input with fewer than two whitespace tokens, input whose
first token is not an integer, and input whose lowercased second token
contains none of "hour", "day", "week", "month", "year" as a substring.
(It is not total in general: a recognized unit whose offset overflows the
`timedelta`/`datetime` range raises `OverflowError`.) -/
theorem C5_amended (s : String) (now : Int)
    (h : s.toList = [] ∨ containsSub streamedChars s.toList = true ∨
      (pySplit s.toList).length < 2 ∨
      (∃ p0 p1 r, pySplit s.toList = p0 :: p1 :: r ∧
        (pyIntChars p0 = none ∨
          ∃ v, pyIntChars p0 = some v ∧ matchUnit (p1.map asciiLower) = none))) :
    parse_relative_time s now = .ok now :=
  parseRelCore_fallback s.toList now h

/-- C5 witness: the three concrete inputs of the claim all resolve to the
frozen "now" exactly. -/
theorem C5_amended_witness :
    parse_relative_time "Streamed 2 days ago" 0 = .ok 0 ∧
      parse_relative_time "" 0 = .ok 0 ∧
      parse_relative_time "garbage text" 0 = .ok 0 :=
  ⟨C5_amended "Streamed 2 days ago" 0 (Or.inr (Or.inl (by decide))),
    C5_amended "" 0 (Or.inl rfl),
    C5_amended "garbage text" 0 (Or.inr (Or.inr (Or.inr
      ⟨['g','a','r','b','a','g','e'], ['t','e','x','t'], [], by decide,
        Or.inl (by decide)⟩)))⟩

/-! ### Claims C6 and C10: supporting lemmas -/

theorem intStr_coe_nat (n : Nat) : intStr (n : Int) = natStr n :=
  congrArg String.mk (intChars_coe_nat n)

theorem dtSubDelta_ok (now secs : Int) (h0 : 0 ≤ secs)
    (h1 : secs.fdiv 86400 ≤ 999999999) (h2 : 0 ≤ now - secs) (h3 : now ≤ dtMaxSec) :
    dtSubDelta now secs = .ok (now - secs) := by
  have hfd : 0 ≤ secs.fdiv 86400 := Int.fdiv_nonneg h0 (by norm_num)
  rw [dtSubDelta, if_neg (by omega), if_neg (by omega)]

theorem parse_relative_time_unit (v : Int) (tokS restS : String) (u : TUnit) (now : Int)
    (htokne : tokS.toList ≠ [])
    (htokws : ∀ c ∈ tokS.toList, isPyWs c = false)
    (hstr : containsSub streamedChars
      (intChars v ++ ' ' :: (tokS.toList ++ restS.toList)) = false)
    (hunit : matchUnit (tokS.toList.map asciiLower) = some u)
    (hrest : restS.toList = [] ∨ ∃ c r, restS.toList = c :: r ∧ isPyWs c = true) :
    parse_relative_time (intStr v ++ " " ++ tokS ++ restS) now =
      dtSubDelta now (unitOffsetSecs u v) := by
  unfold parse_relative_time
  have hli : (intStr v ++ " " ++ tokS ++ restS).toList =
      intChars v ++ ' ' :: (tokS.toList ++ restS.toList) := by
    simp only [toList_app, intStr, toList_mk]
    rw [show (" " : String).toList = [' '] from rfl]
    simp [List.append_assoc]
  rw [hli]
  exact parseRelCore_unit v tokS.toList restS.toList u now htokne htokws hstr hunit hrest

/-! ### Claim C6 -/

/-- C6 counterexample: resolving the phrase "999999999999 days ago"
(unit day, non-negative integer n = 999999999999) at frozen
now = 1000000 raises `OverflowError` instead of yielding now minus n
days: the `timedelta` day bound is exceeded and `except ValueError`
does not catch `OverflowError`. -/
theorem C6_counterexample :
    parse_relative_time "999999999999 days ago" 1000000 = .error .overflowError ∧
      (Except.error PyErr.overflowError : Except PyErr Int) ≠
        .ok (1000000 - 86400 * 999999999999) := by
  refine ⟨by decide, by decide⟩

/-- C6 (amended): for every phrase "<n> <unit>[s] ago" with non-negative
integer n, whenever the computed offset fits the `timedelta` day bound
and "now" minus the offset stays within the `datetime` range, resolving
the phrase at frozen "now" yields now minus exactly n hours, days, or
weeks for unit hour/day/week, now minus n * 30 days for month, and now
minus n * 365 days for year. -/
theorem C6_amended (n : Nat) (u : TUnit) (plural : Bool) (now : Int)
    (h1 : (unitOffsetSecs u (n : Int)).fdiv 86400 ≤ 999999999)
    (h2 : 0 ≤ now - unitOffsetSecs u (n : Int))
    (h3 : now ≤ dtMaxSec) :
    parse_relative_time
        (natStr n ++ " " ++ unitStr u ++ (if plural then "s" else "") ++ " ago") now =
      .ok (now - unitOffsetSecs u (n : Int)) := by
  have h0 : 0 ≤ unitOffsetSecs u (n : Int) := by
    cases u <;> simp only [unitOffsetSecs] <;> positivity
  have hphrase : natStr n ++ " " ++ unitStr u ++ (if plural then "s" else "") ++ " ago" =
      intStr (n : Int) ++ " " ++ (unitStr u ++ (if plural then "s" else "")) ++ " ago" := by
    rw [intStr_coe_nat, ← String.append_assoc]
  rw [hphrase]
  rw [parse_relative_time_unit (n : Int) (unitStr u ++ (if plural then "s" else ""))
    " ago" u now
    (by cases u <;> cases plural <;> decide)
    (by cases u <;> cases plural <;> decide)
    (by
      apply streamed_not_in
      intro hmem
      rcases List.mem_append.mp hmem with hm | hm
      · exact intChars_no_S _ hm
      · revert hm
        cases u <;> cases plural <;> decide)
    (by cases u <;> cases plural <;> decide)
    (Or.inr ⟨' ', ['a', 'g', 'o'], rfl, rfl⟩)]
  exact dtSubDelta_ok now _ h0 h1 h2 h3

/-- C6 witness: "2 days ago" at frozen now = 1000000 resolves to
now minus two days. -/
theorem C6_amended_witness :
    parse_relative_time
        (natStr 2 ++ " " ++ unitStr TUnit.day ++ (if true then "s" else "") ++ " ago")
        1000000 =
      .ok (1000000 - unitOffsetSecs TUnit.day ((2 : Nat) : Int)) :=
  C6_amended 2 TUnit.day true 1000000 (by decide) (by decide) (by decide)

/-! ### Claim C10 -/

/-- C10 counterexample: the unit-containment description is not
unconditional.  At frozen now = 1000000, the input "2 Streamedhour" has
an integer first token and a second token containing "hour" as a
substring, yet it resolves to "now" (the earlier 'Streamed' guard fires
first), not to now minus two hours; and "999999999999 weekly" (second
token contains "week") raises `OverflowError` instead of resolving to n
weeks before now. -/
theorem C10_counterexample :
    parse_relative_time "2 Streamedhour" 1000000 = .ok 1000000 ∧
      matchUnit ("Streamedhour".toList.map asciiLower) = some TUnit.hour ∧
      (1000000 : Int) - unitOffsetSecs TUnit.hour 2 ≠ 1000000 ∧
      parse_relative_time "999999999999 weekly" 1000000 = .error .overflowError := by
  refine ⟨by decide, by decide, by decide, by decide⟩

/-- C10 (amended): for every integer n, provided the input does not
contain the marker "Streamed" and the computed offset stays within the
`timedelta`/`datetime` range, any input whose second whitespace token
merely contains "hour", "day", "week", "month", or "year" as a substring
of its lowercase form (the checks tried in that fixed order, captured by
`matchUnit`) resolves as n of that unit before the frozen "now",
regardless of any tokens after the second and with no check for a
trailing "ago". -/
theorem C10_amended (i : Int) (tok rest : List Char) (u : TUnit) (now : Int)
    (htokne : tok ≠ [])
    (htokws : ∀ c ∈ tok, isPyWs c = false)
    (hstr : containsSub streamedChars (intChars i ++ ' ' :: (tok ++ rest)) = false)
    (hunit : matchUnit (tok.map asciiLower) = some u)
    (hrest : rest = [] ∨ ∃ c r, rest = c :: r ∧ isPyWs c = true)
    (hb1 : -999999999 ≤ (unitOffsetSecs u i).fdiv 86400)
    (hb2 : (unitOffsetSecs u i).fdiv 86400 ≤ 999999999)
    (hb3 : 0 ≤ now - unitOffsetSecs u i)
    (hb4 : now - unitOffsetSecs u i ≤ dtMaxSec) :
    parse_relative_time (String.mk (intChars i ++ ' ' :: (tok ++ rest))) now =
      .ok (now - unitOffsetSecs u i) := by
  unfold parse_relative_time
  rw [toList_mk]
  rw [parseRelCore_unit i tok rest u now htokne htokws hstr hunit hrest]
  rw [dtSubDelta, if_neg (by omega), if_neg (by omega)]

/-- C10 witness: "3 weekly" (no trailing "ago", unit word "weekly"
merely containing "week") resolves to three weeks before the frozen
now = 10000000. -/
theorem C10_amended_witness :
    parse_relative_time (String.mk (intChars 3 ++ ' ' :: ("weekly".toList ++ []))) 10000000 =
      .ok (10000000 - unitOffsetSecs TUnit.week 3) :=
  C10_amended 3 "weekly".toList [] TUnit.week 10000000 (by decide) (by decide)
    (by decide) (by decide) (Or.inl rfl) (by decide) (by decide) (by decide) (by decide)

/-! ### Claim C7 -/

/-- C7: for every valid absolute timestamp t (second granularity, within
the `datetime` range), parsing the ISO-8601 rendering of t with the
authenticated variant's `strptime` format returns exactly t: the
serialize-then-parse round trip is the identity. -/
theorem C7_iso_roundtrip (t : PyDateTime) (h : validDT t) :
    strptimeIso (formatIso t) = some t :=
  strptime_format_roundtrip t h

/-- C7 witness: the round trip at the concrete leap-day timestamp
2024-02-29T12:30:05. -/
theorem C7_iso_roundtrip_witness :
    validDT ⟨2024, 2, 29, 12, 30, 5⟩ ∧
      strptimeIso (formatIso ⟨2024, 2, 29, 12, 30, 5⟩) = some ⟨2024, 2, 29, 12, 30, 5⟩ :=
  ⟨by decide, C7_iso_roundtrip ⟨2024, 2, 29, 12, 30, 5⟩ (by decide)⟩

/-! ### Claim C8 -/

theorem except_bind_ok {ε α β : Type} (a : α) (f : α → Except ε β) :
    (Except.ok a >>= f) = f a := rfl

/-- C8: for every record sequence and window, whenever every record's
publish time resolves (the claim speaks of "the resolved publish time" of
each record), the date-range filter returns exactly the input records
whose resolved time t satisfies start <= t <= end — both endpoints
retained — as a `List.filter` of the input: the original order is
preserved and the records themselves are returned unmodified. -/
theorem C8_filter_spec (videos : List RawVideo) (startDate endDate now : Int)
    (useApi : Bool)
    (h : ∀ v ∈ videos, ∃ t, getPublishDate useApi now v = .ok t) :
    filter_videos_by_date_range videos startDate endDate useApi now =
      .ok (videos.filter (fun v =>
        match getPublishDate useApi now v with
        | .ok t => decide (startDate ≤ t ∧ t ≤ endDate)
        | .error _ => false)) := by
  induction videos with
  | nil => rfl
  | cons v rest ih =>
    obtain ⟨t, ht⟩ := h v (List.mem_cons_self v rest)
    have hrest := ih (fun w hw => h w (List.mem_cons_of_mem v hw))
    simp only [filter_videos_by_date_range, List.filter_cons, ht, hrest]
    simp only [except_bind_ok]
    by_cases hin : startDate ≤ t ∧ t ≤ endDate
    · rw [if_pos hin]
      simp [hin]
    · rw [if_neg hin]
      simp [hin]

/-- C8 witness: at frozen now = 1000000, a record resolving exactly to
the window start (827200, from "2 days ago") and a record resolving
exactly to the window end (1000000, from a missing publish time) are
both retained, in input order. -/
theorem C8_filter_witness :
    filter_videos_by_date_range
        [.scraped ⟨none, none, none, some "2 days ago", none⟩,
          .scraped ⟨none, none, none, none, none⟩] 827200 1000000 false 1000000 =
      .ok [.scraped ⟨none, none, none, some "2 days ago", none⟩,
        .scraped ⟨none, none, none, none, none⟩] := by
  have hres : ∀ v ∈ ([.scraped ⟨none, none, none, some "2 days ago", none⟩,
      .scraped ⟨none, none, none, none, none⟩] : List RawVideo),
      ∃ t, getPublishDate false 1000000 v = .ok t := by
    intro v hv
    fin_cases hv
    · exact ⟨827200, by decide⟩
    · exact ⟨1000000, by decide⟩
  exact (C8_filter_spec _ 827200 1000000 1000000 false hres).trans (by decide)
